import Mathlib

/-
Shallow embedding of the stats-collection module of `llvtt/flashback`
(`src/replay/src/replay/stats.go`).

Modelling conventions:
- Go `time.Duration` and timestamps are `Int` nanosecond counts
  (`time.Second = 1000000000` nanoseconds).
- Go `float64` values (the sample rate, the uniform random draw of
  `rand.Float64()`, and the derived metrics) are rationals.
- Go maps `map[OpType]int64` / `map[OpType]time.Duration` are total
  functions with Go's zero-value default; map reads of a missing key
  return 0 and `m[k]++` inserts, exactly as the total-function model.
- The nullable pair `epoch *time.Time` / `lastOp *OpType` is one
  optional `(timestamp, opType)` field; the source always sets and
  clears the two pointers together.
- The latency channel is an optional channel identifier; the push that
  `EndOp` performs is returned explicitly as an optional
  `(channel, sample)` value rather than hidden in a side effect.
- Nondeterministic inputs of the source (`time.Now()`, `rand.Float64()`)
  are explicit arguments of `StartOp` / `EndOp`.
-/

namespace Flashback

/-- The `Latency` record of the source: operation type plus duration in
nanoseconds. -/
structure Latency (Op : Type) where
  opType : Op
  latency : Int
deriving DecidableEq

/-- The `StatsCollector` struct of the source. -/
structure StatsCollector (Op : Type) where
  counts : Op → Int
  durations : Op → Int
  total : Int
  sampleRate : ℚ
  pending : Option (Int × Op)
  latencyChan : Option ℕ

/-- `NewStatsCollector`: the source's constructor loops over `AllOpTypes`
writing an explicit 0 into both maps; with the total-function map model
(default 0) this is the all-zero function. `sampleRate` starts at 1,
`epoch`, `lastOp` and `latencyChan` start nil. -/
def NewStatsCollector (Op : Type) : StatsCollector Op :=
  { counts := fun _ => 0
    durations := fun _ => 0
    total := 0
    sampleRate := 1
    pending := none
    latencyChan := none }

/-- `StartOp`: unconditionally bump `total` and `counts[opType]`; then, if
the sample rate is nonzero and either it is exactly 1 or the random draw
falls below it, record the pending start; otherwise leave the pending
state untouched. -/
def StatsCollector.StartOp {Op : Type} [DecidableEq Op]
    (s : StatsCollector Op) (opType : Op) (now : Int) (draw : ℚ) :
    StatsCollector Op :=
  let s1 : StatsCollector Op :=
    { s with
      total := s.total + 1
      counts := fun u => if u = opType then s.counts u + 1 else s.counts u }
  if s1.sampleRate = 0 then s1
  else if s1.sampleRate = 1 ∨ draw < s1.sampleRate then
    { s1 with pending := some (now, opType) }
  else s1

/-- `EndOp`: a no-op when no start is pending; otherwise add the elapsed
time to the pending type's accumulated duration, push the sample to the
currently installed channel when one is set, and clear the pending state.
The second component is the push performed (channel identity and sample),
`none` when nothing is pushed. -/
def StatsCollector.EndOp {Op : Type} [DecidableEq Op]
    (s : StatsCollector Op) (now : Int) :
    StatsCollector Op × Option (ℕ × Latency Op) :=
  match s.pending with
  | none => (s, none)
  | some (epoch, lastOp) =>
      let duration := now - epoch
      ({ s with
          durations := fun u =>
            if u = lastOp then s.durations u + duration else s.durations u
          pending := none },
        s.latencyChan.map (fun c => (c, ⟨lastOp, duration⟩)))

/-- `Count`: the cumulative start count of the type. -/
def StatsCollector.Count {Op : Type} (s : StatsCollector Op) (opType : Op) :
    Int :=
  s.counts opType

/-- `TotalTime`: the accumulated sampled duration of the type, in
nanoseconds. -/
def StatsCollector.TotalTime {Op : Type} (s : StatsCollector Op)
    (opType : Op) : Int :=
  s.durations opType

/-- `OpsSec`: `float64(counts[t]) * float64(time.Second) / float64(nano)`
guarded by the zero check on `nano`. -/
def StatsCollector.OpsSec {Op : Type} (s : StatsCollector Op) (opType : Op) :
    ℚ :=
  let nano := s.TotalTime opType
  if nano = 0 then 0
  else (s.counts opType : ℚ) * 1000000000 / (nano : ℚ)

/-- `LatencyInMs`: `TotalTime(t).Seconds() / count * 1000` guarded by the
zero check on the count; `Seconds()` divides the nanosecond total by
`1000000000`. -/
def StatsCollector.LatencyInMs {Op : Type} (s : StatsCollector Op)
    (opType : Op) : ℚ :=
  let count : ℚ := (s.counts opType : ℚ)
  if count = 0 then 0
  else (s.TotalTime opType : ℚ) / 1000000000 / count * 1000

/-- `SampleLatencies`: overwrite the sample rate and the latency channel. -/
def StatsCollector.SampleLatencies {Op : Type} (s : StatsCollector Op)
    (sampleRate : ℚ) (latencyChannel : Option ℕ) : StatsCollector Op :=
  { s with sampleRate := sampleRate, latencyChan := latencyChannel }

/-- Body of the inner loop of `CombineStats` for one `opType` and one input
`stats`: `newStats.counts[opType] += stats.counts[opType]`,
`newStats.durations[opType] += stats.durations[opType]`, and — inside this
per-opType loop in the source — `newStats.total += stats.total`. -/
def combineOne {Op : Type} [DecidableEq Op] (opType : Op)
    (acc stats : StatsCollector Op) : StatsCollector Op :=
  { acc with
    counts := fun u =>
      if u = opType then acc.counts u + stats.counts opType else acc.counts u
    durations := fun u =>
      if u = opType then acc.durations u + stats.durations opType
      else acc.durations u
    total := acc.total + stats.total }

/-- `CombineStats`: starting from a fresh collector, loop over `AllOpTypes`
and, inside, over the input list. `AllOpTypes` is declared outside this
file, so it is an explicit list parameter here (see `specAllOpTypes`). -/
def CombineStats {Op : Type} [DecidableEq Op] (allOpTypes : List Op)
    (statsList : List (StatsCollector Op)) : StatsCollector Op :=
  allOpTypes.foldl
    (fun acc opType => statsList.foldl (combineOne opType) acc)
    (NewStatsCollector Op)

/-- Modelled from the spec: `AllOpTypes`, the fixed, externally defined set
of operation-type labels, is declared outside the file under analysis. The
spec treats it as an opaque closed set of distinct labels categorizing the
measured kinds of operations, with more than one kind in general; this
instantiation supplies `n` distinct labels without duplicates. -/
def specAllOpTypes (n : ℕ) : List (Fin n) := List.finRange n

/-- The `nullStatsCollector` struct of the source: no fields. -/
structure NullStatsCollector where

/-- Null `StartOp`: empty body. -/
def NullStatsCollector.StartOp {Op : Type} (e : NullStatsCollector)
    (_opType : Op) : NullStatsCollector :=
  e

/-- Null `EndOp`: empty body, so no state change and nothing pushed. -/
def NullStatsCollector.EndOp {Op : Type} (e : NullStatsCollector) :
    NullStatsCollector × Option (ℕ × Latency Op) :=
  (e, none)

/-- Null `SampleLatencies`: empty body. -/
def NullStatsCollector.SampleLatencies (e : NullStatsCollector) (_r : ℚ)
    (_c : Option ℕ) : NullStatsCollector :=
  e

/-- Null `Count`: returns 0. -/
def NullStatsCollector.Count {Op : Type} (_e : NullStatsCollector)
    (_opType : Op) : Int :=
  0

/-- Null `TotalTime`: returns 0. -/
def NullStatsCollector.TotalTime {Op : Type} (_e : NullStatsCollector)
    (_opType : Op) : Int :=
  0

/-- Null `OpsSec`: returns 0. -/
def NullStatsCollector.OpsSec {Op : Type} (_e : NullStatsCollector)
    (_opType : Op) : ℚ :=
  0

/-- Null `LatencyInMs`: returns 0. -/
def NullStatsCollector.LatencyInMs {Op : Type} (_e : NullStatsCollector)
    (_opType : Op) : ℚ :=
  0

/-- `N` successive `StartOp t` calls, with the timestamp and the random
draw of the `i`-th call supplied by `times i` and `draws i`. -/
def startOpN {Op : Type} [DecidableEq Op] (s : StatsCollector Op) (t : Op)
    (times : ℕ → Int) (draws : ℕ → ℚ) : ℕ → StatsCollector Op
  | 0 => s
  | n + 1 => (startOpN s t times draws n).StartOp t (times n) (draws n)

/-- A concrete collector state used to evaluate the derived metrics: three
recorded starts of type 0 with two accumulated seconds of sampled
duration, and nothing recorded under type 1. -/
def sampleState : StatsCollector (Fin 2) :=
  { counts := fun i => if i = 0 then 3 else 0
    durations := fun i => if i = 0 then 2000000000 else 0
    total := 3
    sampleRate := 1
    pending := none
    latencyChan := none }

/-! ### Basic lemmas about the operations -/

theorem StartOp_counts {Op : Type} [DecidableEq Op] (s : StatsCollector Op)
    (t : Op) (now : Int) (d : ℚ) :
    (s.StartOp t now d).counts =
      fun u => if u = t then s.counts u + 1 else s.counts u := by
  simp only [StatsCollector.StartOp]
  split_ifs <;> rfl

theorem StartOp_total {Op : Type} [DecidableEq Op] (s : StatsCollector Op)
    (t : Op) (now : Int) (d : ℚ) :
    (s.StartOp t now d).total = s.total + 1 := by
  simp only [StatsCollector.StartOp]
  split_ifs <;> rfl

theorem StartOp_durations {Op : Type} [DecidableEq Op]
    (s : StatsCollector Op) (t : Op) (now : Int) (d : ℚ) :
    (s.StartOp t now d).durations = s.durations := by
  simp only [StatsCollector.StartOp]
  split_ifs <;> rfl

theorem StartOp_sampleRate {Op : Type} [DecidableEq Op]
    (s : StatsCollector Op) (t : Op) (now : Int) (d : ℚ) :
    (s.StartOp t now d).sampleRate = s.sampleRate := by
  simp only [StatsCollector.StartOp]
  split_ifs <;> rfl

theorem StartOp_latencyChan {Op : Type} [DecidableEq Op]
    (s : StatsCollector Op) (t : Op) (now : Int) (d : ℚ) :
    (s.StartOp t now d).latencyChan = s.latencyChan := by
  simp only [StatsCollector.StartOp]
  split_ifs <;> rfl

theorem StartOp_pending_sampled {Op : Type} [DecidableEq Op]
    (s : StatsCollector Op) (t : Op) (now : Int) (d : ℚ)
    (h0 : s.sampleRate ≠ 0)
    (h1 : s.sampleRate = 1 ∨ d < s.sampleRate) :
    (s.StartOp t now d).pending = some (now, t) := by
  simp only [StatsCollector.StartOp]
  split_ifs with hA
  · exact absurd hA h0
  · rfl

theorem StartOp_pending_unsampled {Op : Type} [DecidableEq Op]
    (s : StatsCollector Op) (t : Op) (now : Int) (d : ℚ)
    (h : s.sampleRate = 0 ∨ (s.sampleRate ≠ 1 ∧ ¬ d < s.sampleRate)) :
    (s.StartOp t now d).pending = s.pending := by
  simp only [StatsCollector.StartOp]
  split_ifs with hA hB
  · rfl
  · rcases h with h | ⟨h1, h2⟩
    · exact absurd h hA
    · rcases hB with hB | hB
      · exact absurd hB h1
      · exact absurd hB h2
  · rfl

theorem EndOp_of_pending_none {Op : Type} [DecidableEq Op]
    (s : StatsCollector Op) (now : Int) (h : s.pending = none) :
    s.EndOp now = (s, none) := by
  unfold StatsCollector.EndOp
  rw [h]

theorem EndOp_of_pending_some {Op : Type} [DecidableEq Op]
    (s : StatsCollector Op) (now epoch : Int) (t : Op)
    (h : s.pending = some (epoch, t)) :
    s.EndOp now =
      ({ s with
          durations := fun u =>
            if u = t then s.durations u + (now - epoch) else s.durations u
          pending := none },
        s.latencyChan.map (fun c => (c, ⟨t, now - epoch⟩))) := by
  unfold StatsCollector.EndOp
  rw [h]

theorem SampleLatencies_fields {Op : Type} (s : StatsCollector Op) (r : ℚ)
    (c : Option ℕ) :
    ((s.SampleLatencies r c).counts = s.counts ∧
      (s.SampleLatencies r c).durations = s.durations ∧
      (s.SampleLatencies r c).total = s.total ∧
      (s.SampleLatencies r c).pending = s.pending) ∧
    (s.SampleLatencies r c).sampleRate = r ∧
    (s.SampleLatencies r c).latencyChan = c :=
  ⟨⟨rfl, rfl, rfl, rfl⟩, rfl, rfl⟩

theorem startOpN_counts {Op : Type} [DecidableEq Op] (s : StatsCollector Op)
    (t : Op) (times : ℕ → Int) (draws : ℕ → ℚ) (N : ℕ) (u : Op) :
    (startOpN s t times draws N).counts u =
      s.counts u + if u = t then (N : Int) else 0 := by
  induction N with
  | zero => simp [startOpN]
  | succ n ih =>
      rw [startOpN]
      simp only [StartOp_counts, ih]
      split_ifs <;> push_cast <;> ring

theorem foldl_combineOne_config {Op : Type} [DecidableEq Op] (o : Op)
    (l : List (StatsCollector Op)) :
    ∀ acc : StatsCollector Op,
      (l.foldl (combineOne o) acc).sampleRate = acc.sampleRate ∧
      (l.foldl (combineOne o) acc).pending = acc.pending ∧
      (l.foldl (combineOne o) acc).latencyChan = acc.latencyChan := by
  induction l with
  | nil => exact fun acc => ⟨rfl, rfl, rfl⟩
  | cons x xs ih =>
      intro acc
      simp only [List.foldl_cons]
      exact ih (combineOne o acc x)

theorem combineStats_foldl_config {Op : Type} [DecidableEq Op]
    (l : List (StatsCollector Op)) (allOp : List Op) :
    ∀ acc : StatsCollector Op,
      ((allOp.foldl (fun a o => l.foldl (combineOne o) a) acc).sampleRate =
          acc.sampleRate ∧
        (allOp.foldl (fun a o => l.foldl (combineOne o) a) acc).pending =
          acc.pending ∧
        (allOp.foldl (fun a o => l.foldl (combineOne o) a) acc).latencyChan =
          acc.latencyChan) := by
  induction allOp with
  | nil => exact fun acc => ⟨rfl, rfl, rfl⟩
  | cons o os ih =>
      intro acc
      simp only [List.foldl_cons]
      have h1 := foldl_combineOne_config o l acc
      have h2 := ih (l.foldl (combineOne o) acc)
      exact ⟨h2.1.trans h1.1, h2.2.1.trans h1.2.1, h2.2.2.trans h1.2.2⟩

/-! ### Claim theorems -/

/-- Claim C1 (code bug): `CombineStats` is claimed to return a collector
whose `total` is the sum of the inputs' `total` fields. In the source the
statement `newStats.total += stats.total` sits inside the loop over
`AllOpTypes`, so each input's `total` is added once per operation type.
Concretely, with two operation types and a single input collector that has
recorded one started operation (`total = 1`, one count under type 0), the
combined collector reports `total = 2` while the per-type counts are
aggregated correctly. -/
theorem combineStats_total_counted_per_optype :
    ((NewStatsCollector (Fin 2)).StartOp 0 0 0).total = 1 ∧
    (CombineStats (specAllOpTypes 2)
      [(NewStatsCollector (Fin 2)).StartOp 0 0 0]).total = 2 ∧
    (CombineStats (specAllOpTypes 2)
      [(NewStatsCollector (Fin 2)).StartOp 0 0 0]).counts 0 = 1 ∧
    (CombineStats (specAllOpTypes 2)
      [(NewStatsCollector (Fin 2)).StartOp 0 0 0]).counts 1 = 0 := by
  decide

/-- Claim C2 (counterexample): the claim states that after
`SampleLatencies(rate, sink)` a subsequent `EndOp` does not apply the new
rate or the new sink to an operation already in flight. For the sink this
is false: `EndOp` consults the channel installed at the moment it runs.
Concretely, a collector with an in-flight sampled operation and no sink
installed (`latencyChan = none`), reconfigured mid-flight with
`SampleLatencies (1/2) (some 3)`, pushes the in-flight operation's sample
`(type 0, duration 7)` to the newly installed channel 3 on `EndOp`. -/
theorem sampleLatencies_new_sink_receives_inflight :
    ((NewStatsCollector (Fin 1)).StartOp 0 0 0).latencyChan = none ∧
    ((((NewStatsCollector (Fin 1)).StartOp 0 0 0).SampleLatencies (1/2)
        (some 3)).EndOp 7).2 = some (3, ⟨0, 7⟩) := by
  decide

/-- Claim C2 (amended): `SampleLatencies` only configures state. The new
sample rate takes effect for subsequent `StartOp` calls only and does not
retroactively affect an in-flight operation, whose elapsed time is still
added to its type on `EndOp` whatever the new rate is; the sample sink,
however, is consulted at `EndOp` time, so the in-flight operation's sample
is pushed to the newly installed sink (or dropped if the sink was removed). -/
theorem sampleLatencies_midflight {Op : Type} [DecidableEq Op]
    (s : StatsCollector Op) (e : Int) (t : Op) (r : ℚ) (c : Option ℕ)
    (now : Int) (hp : s.pending = some (e, t)) :
    ((s.SampleLatencies r c).EndOp now).1.durations t =
      s.durations t + (now - e) ∧
    ((s.SampleLatencies r c).EndOp now).2 =
      c.map (fun ch => (ch, ⟨t, now - e⟩)) ∧
    ((s.SampleLatencies r c).EndOp now).1.pending = none := by
  have hp' : (s.SampleLatencies r c).pending = some (e, t) := hp
  rw [EndOp_of_pending_some _ now e t hp']
  refine ⟨?_, rfl, rfl⟩
  simp [StatsCollector.SampleLatencies]

/-- Witness for the amended C2 theorem at a concrete reachable state: an
in-flight start of type 0 at time 0, rate reconfigured to 0 and channel 3
installed mid-flight, `EndOp` at time 7. -/
theorem sampleLatencies_midflight_witness :
    ((NewStatsCollector (Fin 1)).StartOp 0 0 0).pending = some (0, 0) ∧
    (((((NewStatsCollector (Fin 1)).StartOp 0 0 0).SampleLatencies 0
          (some 3)).EndOp 7).1.durations 0 =
        ((NewStatsCollector (Fin 1)).StartOp 0 0 0).durations 0 + (7 - 0) ∧
      ((((NewStatsCollector (Fin 1)).StartOp 0 0 0).SampleLatencies 0
            (some 3)).EndOp 7).2 =
        (some 3).map (fun ch => (ch, ⟨0, 7 - 0⟩)) ∧
      ((((NewStatsCollector (Fin 1)).StartOp 0 0 0).SampleLatencies 0
            (some 3)).EndOp 7).1.pending = none) :=
  ⟨by decide,
    sampleLatencies_midflight ((NewStatsCollector (Fin 1)).StartOp 0 0 0)
      0 0 0 (some 3) 7 (by decide)⟩

/-- Claim C3: an unsampled `StartOp` (sample rate 0, or a failed random
draw under a rate strictly between 0 and 1) leaves an earlier sampled
pending start in place, so the next `EndOp` adds the entire elapsed time
since the earlier start to the earlier operation's type and, when a sink
is configured, emits a sample for that earlier type — it is not a no-op. -/
theorem unsampled_startOp_preserves_pending {Op : Type} [DecidableEq Op]
    (s : StatsCollector Op) (e : Int) (t1 t2 : Op) (n2 n3 : Int) (d : ℚ)
    (hp : s.pending = some (e, t1))
    (hns : s.sampleRate = 0 ∨
      (0 < s.sampleRate ∧ s.sampleRate < 1 ∧ s.sampleRate ≤ d)) :
    (s.StartOp t2 n2 d).pending = some (e, t1) ∧
    ((s.StartOp t2 n2 d).EndOp n3).1.durations t1 =
      s.durations t1 + (n3 - e) ∧
    ((s.StartOp t2 n2 d).EndOp n3).2 =
      s.latencyChan.map (fun c => (c, ⟨t1, n3 - e⟩)) := by
  have hcond : s.sampleRate = 0 ∨ (s.sampleRate ≠ 1 ∧ ¬ d < s.sampleRate) := by
    rcases hns with h | ⟨hlt0, hlt1, hle⟩
    · exact Or.inl h
    · exact Or.inr ⟨ne_of_lt hlt1, not_lt.mpr hle⟩
  have hpend : (s.StartOp t2 n2 d).pending = some (e, t1) :=
    (StartOp_pending_unsampled s t2 n2 d hcond).trans hp
  have hend := EndOp_of_pending_some (s.StartOp t2 n2 d) n3 e t1 hpend
  refine ⟨hpend, ?_, ?_⟩
  · rw [hend]
    simp [StartOp_durations]
  · rw [hend]
    simp [StartOp_latencyChan]

/-- Witness for C3 at a concrete reachable state: a sampled start of
type 0 at time 0 (default rate 1), rate then set to 0, a second start of
type 1 at time 3 that is therefore unsampled, and `EndOp` at time 7, which
charges the full 7 elapsed nanoseconds to type 0. -/
theorem unsampled_startOp_preserves_pending_witness :
    (((NewStatsCollector (Fin 2)).StartOp 0 0 0).SampleLatencies 0
        none).pending = some (0, 0) ∧
    (((((NewStatsCollector (Fin 2)).StartOp 0 0 0).SampleLatencies 0
          none).StartOp 1 3 0).pending = some (0, 0) ∧
      ((((((NewStatsCollector (Fin 2)).StartOp 0 0 0).SampleLatencies 0
              none).StartOp 1 3 0).EndOp 7).1.durations 0 =
          (((NewStatsCollector (Fin 2)).StartOp 0 0 0).SampleLatencies 0
              none).durations 0 + (7 - 0) ∧
        (((((NewStatsCollector (Fin 2)).StartOp 0 0 0).SampleLatencies 0
              none).StartOp 1 3 0).EndOp 7).2 =
          ((((NewStatsCollector (Fin 2)).StartOp 0 0 0).SampleLatencies 0
              none).latencyChan).map (fun c => (c, ⟨0, 7 - 0⟩)))) :=
  ⟨by decide,
    unsampled_startOp_preserves_pending
      (((NewStatsCollector (Fin 2)).StartOp 0 0 0).SampleLatencies 0 none)
      0 0 1 3 7 0 (by decide) (Or.inl rfl)⟩

/-- Claim C4: two sampled `StartOp` calls with no intervening `EndOp`
overwrite the pending start (last writer wins, at most one pending timed
operation), so the single following `EndOp` charges the elapsed time since
the second start to the second type only, while both counts were already
incremented by their respective `StartOp` calls. -/
theorem overlapping_startOps_last_writer_wins {Op : Type} [DecidableEq Op]
    (s : StatsCollector Op) (t1 t2 : Op) (n1 n2 n3 : Int) (d1 d2 : ℚ)
    (hne : t1 ≠ t2) (h0 : s.sampleRate ≠ 0)
    (_h1 : s.sampleRate = 1 ∨ d1 < s.sampleRate)
    (h2 : s.sampleRate = 1 ∨ d2 < s.sampleRate) :
    ((s.StartOp t1 n1 d1).StartOp t2 n2 d2).pending = some (n2, t2) ∧
    ((s.StartOp t1 n1 d1).StartOp t2 n2 d2).Count t1 = s.Count t1 + 1 ∧
    ((s.StartOp t1 n1 d1).StartOp t2 n2 d2).Count t2 = s.Count t2 + 1 ∧
    (((s.StartOp t1 n1 d1).StartOp t2 n2 d2).EndOp n3).1.durations t2 =
      s.durations t2 + (n3 - n2) ∧
    (∀ u, u ≠ t2 →
      (((s.StartOp t1 n1 d1).StartOp t2 n2 d2).EndOp n3).1.durations u =
        s.durations u) ∧
    (((s.StartOp t1 n1 d1).StartOp t2 n2 d2).EndOp n3).1.pending = none := by
  have hr : (s.StartOp t1 n1 d1).sampleRate = s.sampleRate :=
    StartOp_sampleRate s t1 n1 d1
  have hpend :
      ((s.StartOp t1 n1 d1).StartOp t2 n2 d2).pending = some (n2, t2) := by
    apply StartOp_pending_sampled
    · rw [hr]; exact h0
    · rw [hr]; exact h2
  have hend :=
    EndOp_of_pending_some ((s.StartOp t1 n1 d1).StartOp t2 n2 d2) n3 n2 t2
      hpend
  refine ⟨hpend, ?_, ?_, ?_, ?_, ?_⟩
  · simp only [StatsCollector.Count, StartOp_counts]
    simp [hne]
  · simp only [StatsCollector.Count, StartOp_counts]
    simp [Ne.symm hne]
  · rw [hend]
    simp [StartOp_durations]
  · intro u hu
    rw [hend]
    simp [hu, StartOp_durations]
  · simp [hend]

/-- Witness for C4 at a concrete reachable state: the fresh collector
(rate 1) receives `StartOp 0` at time 0 and `StartOp 1` at time 3, both
sampled; the `EndOp` at time 10 charges 7 nanoseconds to type 1 and
nothing to type 0, while both counts were incremented. -/
theorem overlapping_startOps_last_writer_wins_witness :
    (NewStatsCollector (Fin 2)).sampleRate ≠ 0 ∧
    (((NewStatsCollector (Fin 2)).StartOp 0 0 0).StartOp 1 3 0).pending =
      some (3, 1) ∧
    (((NewStatsCollector (Fin 2)).StartOp 0 0 0).StartOp 1 3 0).Count 0 =
      (NewStatsCollector (Fin 2)).Count 0 + 1 ∧
    (((NewStatsCollector (Fin 2)).StartOp 0 0 0).StartOp 1 3 0).Count 1 =
      (NewStatsCollector (Fin 2)).Count 1 + 1 ∧
    ((((NewStatsCollector (Fin 2)).StartOp 0 0 0).StartOp 1 3 0).EndOp
          10).1.durations 1 =
      (NewStatsCollector (Fin 2)).durations 1 + (10 - 3) ∧
    ((((NewStatsCollector (Fin 2)).StartOp 0 0 0).StartOp 1 3 0).EndOp
          10).1.durations 0 =
      (NewStatsCollector (Fin 2)).durations 0 ∧
    ((((NewStatsCollector (Fin 2)).StartOp 0 0 0).StartOp 1 3 0).EndOp
          10).1.pending = none := by
  have h := overlapping_startOps_last_writer_wins (NewStatsCollector (Fin 2))
    0 1 0 3 10 0 0 (by decide) (by decide) (Or.inl rfl) (Or.inl rfl)
  exact ⟨by decide, h.1, h.2.1, h.2.2.1, h.2.2.2.1,
    h.2.2.2.2.1 0 (by decide), h.2.2.2.2.2⟩

/-- Claim C5: after `N` calls of `StartOp t` on a fresh collector — under
any configured sample rate and sink, including rate 0 — `Count t` is `N`,
and `Count` of a type never passed to `StartOp` is 0. -/
theorem count_tracks_starts {Op : Type} [DecidableEq Op] (t t2 : Op)
    (h : t2 ≠ t) (r : ℚ) (c : Option ℕ) (times : ℕ → Int) (draws : ℕ → ℚ)
    (N : ℕ) :
    (startOpN ((NewStatsCollector Op).SampleLatencies r c) t times draws
        N).Count t = (N : Int) ∧
    (startOpN ((NewStatsCollector Op).SampleLatencies r c) t times draws
        N).Count t2 = 0 := by
  constructor
  · simp only [StatsCollector.Count, startOpN_counts]
    simp [NewStatsCollector, StatsCollector.SampleLatencies]
  · simp only [StatsCollector.Count, startOpN_counts]
    simp [NewStatsCollector, StatsCollector.SampleLatencies, h]

/-- Witness for C5: three starts of type 0 under sample rate 0 give
`Count 0 = 3` and `Count 1 = 0`. -/
theorem count_tracks_starts_witness :
    (1 : Fin 2) ≠ 0 ∧
    ((startOpN ((NewStatsCollector (Fin 2)).SampleLatencies 0 none) 0
          (fun _ => 0) (fun _ => 0) 3).Count 0 = ((3 : ℕ) : Int) ∧
      (startOpN ((NewStatsCollector (Fin 2)).SampleLatencies 0 none) 0
          (fun _ => 0) (fun _ => 0) 3).Count 1 = 0) :=
  ⟨by decide,
    count_tracks_starts 0 1 (by decide) 0 none (fun _ => 0) (fun _ => 0) 3⟩

/-- Claim C6: `OpsSec t` equals the count of `t` divided by the
accumulated sampled duration of `t` expressed in seconds, and is exactly 0
when no duration has been accumulated; being a total function on
rationals, it raises no division error. -/
theorem opsSec_spec {Op : Type} (s : StatsCollector Op) (t : Op) :
    (s.TotalTime t = 0 → s.OpsSec t = 0) ∧
    (s.TotalTime t ≠ 0 →
      s.OpsSec t = (s.Count t : ℚ) / ((s.TotalTime t : ℚ) / 1000000000)) := by
  constructor
  · intro h
    simp [StatsCollector.OpsSec, h]
  · intro h
    simp only [StatsCollector.OpsSec, StatsCollector.Count]
    rw [if_neg h, div_div_eq_mul_div]

/-- Witness for C6 at `sampleState`: type 1 has no accumulated duration
and `OpsSec 1 = 0`; type 0 has 2 accumulated seconds and `OpsSec 0` is the
count divided by those seconds. -/
theorem opsSec_spec_witness :
    (sampleState.TotalTime 1 = 0 ∧ sampleState.OpsSec 1 = 0) ∧
    (sampleState.TotalTime 0 ≠ 0 ∧
      sampleState.OpsSec 0 =
        (sampleState.Count 0 : ℚ) /
          ((sampleState.TotalTime 0 : ℚ) / 1000000000)) :=
  ⟨⟨by decide, (opsSec_spec sampleState 1).1 (by decide)⟩,
    ⟨by decide, (opsSec_spec sampleState 0).2 (by decide)⟩⟩

/-- Claim C7: `LatencyInMs t` equals the accumulated sampled duration of
`t` in seconds, divided by the count of `t`, times 1000, and is exactly 0
when the count is 0; being a total function on rationals, it raises no
division error. -/
theorem latencyInMs_spec {Op : Type} (s : StatsCollector Op) (t : Op) :
    (s.Count t = 0 → s.LatencyInMs t = 0) ∧
    (s.Count t ≠ 0 →
      s.LatencyInMs t =
        ((s.TotalTime t : ℚ) / 1000000000) / (s.Count t : ℚ) * 1000) := by
  constructor
  · intro h
    have h0 : (s.counts t : ℚ) = 0 := by exact_mod_cast h
    simp [StatsCollector.LatencyInMs, h0]
  · intro h
    have h0 : (s.counts t : ℚ) ≠ 0 := by exact_mod_cast h
    simp only [StatsCollector.LatencyInMs, StatsCollector.Count,
      StatsCollector.TotalTime]
    rw [if_neg h0]

/-- Witness for C7 at `sampleState`: type 1 has count 0 and
`LatencyInMs 1 = 0`; type 0 has count 3 and its mean latency is the
accumulated seconds over the count, times 1000. -/
theorem latencyInMs_spec_witness :
    (sampleState.Count 1 = 0 ∧ sampleState.LatencyInMs 1 = 0) ∧
    (sampleState.Count 0 ≠ 0 ∧
      sampleState.LatencyInMs 0 =
        ((sampleState.TotalTime 0 : ℚ) / 1000000000) /
          (sampleState.Count 0 : ℚ) * 1000) :=
  ⟨⟨by decide, (latencyInMs_spec sampleState 1).1 (by decide)⟩,
    ⟨by decide, (latencyInMs_spec sampleState 0).2 (by decide)⟩⟩

/-- Claim C8: with no pending timed operation, `EndOp` is a safe no-op —
the collector is returned unchanged (durations, counts and total
untouched) and nothing is pushed to the sink. -/
theorem endOp_noop_without_pending {Op : Type} [DecidableEq Op]
    (s : StatsCollector Op) (now : Int) (h : s.pending = none) :
    s.EndOp now = (s, none) ∧
    (s.EndOp now).1.durations = s.durations ∧
    (s.EndOp now).1.counts = s.counts ∧
    (s.EndOp now).1.total = s.total ∧
    (s.EndOp now).2 = none := by
  have h' := EndOp_of_pending_none s now h
  exact ⟨h', by rw [h'], by rw [h'], by rw [h'], by rw [h']⟩

/-- Witness for C8: on a freshly constructed collector (no pending start)
`EndOp` at time 5 returns the collector unchanged and pushes nothing. -/
theorem endOp_noop_without_pending_witness :
    (NewStatsCollector (Fin 1)).pending = none ∧
    (NewStatsCollector (Fin 1)).EndOp 5 = (NewStatsCollector (Fin 1), none) :=
  ⟨rfl, (endOp_noop_without_pending (NewStatsCollector (Fin 1)) 5 rfl).1⟩

/-- Claim C9: `CombineStats` is a pure aggregation — in this embedding it
is a pure function of its input list, so the inputs are unchanged by
construction — and the collector it returns carries the constructor's
default sampling configuration: sample rate 1 as in `NewStatsCollector`,
no latency channel installed, and no pending start; nothing is merged from
the inputs' sampling state. -/
theorem combineStats_default_config {Op : Type} [DecidableEq Op]
    (allOp : List Op) (l : List (StatsCollector Op)) :
    (CombineStats allOp l).sampleRate = (NewStatsCollector Op).sampleRate ∧
    (CombineStats allOp l).sampleRate = 1 ∧
    (CombineStats allOp l).latencyChan = none ∧
    (CombineStats allOp l).pending = none := by
  have h := combineStats_foldl_config l allOp (NewStatsCollector Op)
  exact ⟨h.1, h.1, h.2.2, h.2.1⟩

/-- Claim C10: the null collector has no state at all, so every operation
of the capability set is callable in any order and any number of times,
changes nothing (the state space is a single point), pushes nothing, and
every query returns zero. -/
theorem nullStatsCollector_noop (Op : Type) (e : NullStatsCollector)
    (t : Op) (r : ℚ) (c : Option ℕ) :
    e.StartOp t = e ∧
    @NullStatsCollector.EndOp Op e = (e, none) ∧
    e.SampleLatencies r c = e ∧
    e.Count t = 0 ∧
    e.TotalTime t = 0 ∧
    e.OpsSec t = 0 ∧
    e.LatencyInMs t = 0 ∧
    ∀ e2 : NullStatsCollector, e = e2 :=
  ⟨rfl, rfl, rfl, rfl, rfl, rfl, rfl, fun _ => rfl⟩

end Flashback
